import Mathlib

/-!
Formal model of the ray-tracing core of the `vk_raytracing_tutorial_KHR`
repository: the geometry adapter, the bottom-level acceleration-structure
build, the ray-tracing pipeline assembly with its shader groups and
shader-binding-table regions, the per-frame trace dispatch, the
frame-accumulation counter, the ray-tracing descriptor-set update, and the
resource teardown.  Each definition is a shallow embedding of the
corresponding C++ function in `raytrace.cpp` (the `Raytracer` class of the
OBJ tutorial) or `ray_tracing_gltf/main.cpp` (the `HelloVulkan` class of the
glTF tutorial); device handles, buffer addresses and float payloads are
modelled as opaque `Nat` tokens, signed integers as `Int`.
-/

/-- Byte strides that appear as `sizeof(...)` expressions in the source;
kept symbolic because the exact byte counts play no role in any property. -/
inductive StrideVal where
  | vertexObj
  | objImplicit
  | vec3f
deriving DecidableEq, Repr

/-- Geometry payload of a `VkAccelerationStructureGeometryKHR`: either
triangle data (`AccelerationStructureGeometryTrianglesDataKHR`) or AABB data
(`AccelerationStructureGeometryAabbsDataKHR`). -/
inductive GeometryData where
  | triangles (vertexAddress : Nat) (vertexStride : StrideVal)
      (indexAddress : Nat) (maxVertex : Nat)
  | aabbs (dataAddress : Nat) (stride : StrideVal)
deriving DecidableEq, Repr

/-- A `VkAccelerationStructureGeometryKHR`: geometry payload plus the
geometry flags (the only flag the source ever sets is
`VK_GEOMETRY_NO_DUPLICATE_ANY_HIT_INVOCATION_BIT_KHR`). -/
structure ASGeometry where
  data : GeometryData
  noDuplicateAnyHit : Bool
deriving DecidableEq, Repr

/-- A `VkAccelerationStructureBuildRangeInfoKHR`. -/
structure BuildRangeInfo where
  firstVertex : Nat
  primitiveCount : Nat
  primitiveOffset : Nat
  transformOffset : Nat
deriving DecidableEq, Repr

/-- `nvvk::RaytracingBuilderKHR::BlasInput`: the geometries and build ranges
of one bottom-level acceleration structure. -/
structure BlasInput where
  asGeometry : List ASGeometry
  asBuildOffsetInfo : List BuildRangeInfo
deriving DecidableEq, Repr

/-- An OBJ model as seen by `Raytracer::objectToVkGeometryKHR`: vertex and
index counts plus the device addresses of its two buffers. -/
structure ObjModel where
  nbIndices : Nat
  nbVertices : Nat
  vertexBufferAddr : Nat
  indexBufferAddr : Nat
deriving DecidableEq, Repr

/-- One implicit (procedural) primitive.  Its fields are irrelevant to the
embedded operations, which only ever take the length of the list holding
them; a single token field stands for its content. -/
structure ObjImplicit where
  objType : Nat
deriving DecidableEq, Repr

/-- `ImplInst`: the set of implicit primitives, the device buffer holding
them, the BLAS id recorded at build time, and the instance transform. -/
structure ImplInst where
  objImpl : List ObjImplicit
  implBufAddr : Nat
  blasId : Int
  transform : Nat
deriving DecidableEq, Repr

/-- A glTF primitive mesh as seen by `HelloVulkan::primitiveToGeometry`. -/
structure GltfPrimMesh where
  firstIndex : Nat
  vertexOffset : Nat
  indexCount : Nat
  vertexCount : Nat
deriving DecidableEq, Repr

/-- `Raytracer::objectToVkGeometryKHR` (raytrace.cpp): one triangle
geometry with the no-duplicate-any-hit flag, and one build range with
`primitiveCount = nbIndices / 3` and all offsets zero. -/
def objectToVkGeometryKHR (model : ObjModel) : BlasInput :=
  let triangles := GeometryData.triangles model.vertexBufferAddr StrideVal.vertexObj
      model.indexBufferAddr model.nbVertices
  let asGeom : ASGeometry := { data := triangles, noDuplicateAnyHit := true }
  let offset : BuildRangeInfo :=
    { firstVertex := 0
      primitiveCount := model.nbIndices / 3
      primitiveOffset := 0
      transformOffset := 0 }
  { asGeometry := [asGeom], asBuildOffsetInfo := [offset] }

/-- `Raytracer::implicitToVkGeometryKHR` (raytrace.cpp): one AABB geometry
with the no-duplicate-any-hit flag, and one build range whose primitive
count is the number of implicit objects. -/
def implicitToVkGeometryKHR (implicitObj : ImplInst) : BlasInput :=
  let aabbs := GeometryData.aabbs implicitObj.implBufAddr StrideVal.objImplicit
  let asGeom : ASGeometry := { data := aabbs, noDuplicateAnyHit := true }
  let offset : BuildRangeInfo :=
    { firstVertex := 0
      primitiveCount := implicitObj.objImpl.length
      primitiveOffset := 0
      transformOffset := 0 }
  { asGeometry := [asGeom], asBuildOffsetInfo := [offset] }

/-- `HelloVulkan::primitiveToGeometry` (ray_tracing_gltf/main.cpp): one
triangle geometry with the no-duplicate-any-hit flag; the build range uses
the primitive's vertex offset, `indexCount / 3` primitives, a byte offset of
`firstIndex * sizeof(uint32_t)`, and transform offset zero. -/
def primitiveToGeometry (vertexBufferAddr indexBufferAddr : Nat)
    (prim : GltfPrimMesh) : BlasInput :=
  let triangles := GeometryData.triangles vertexBufferAddr StrideVal.vec3f
      indexBufferAddr prim.vertexCount
  let asGeom : ASGeometry := { data := triangles, noDuplicateAnyHit := true }
  let offset : BuildRangeInfo :=
    { firstVertex := prim.vertexOffset
      primitiveCount := prim.indexCount / 3
      primitiveOffset := prim.firstIndex * 4
      transformOffset := 0 }
  { asGeometry := [asGeom], asBuildOffsetInfo := [offset] }

/-- `Raytracer::createBottomLevelAS` (raytrace.cpp): one `BlasInput` per OBJ
model, pushed in loop order; when the implicit set is non-empty its
`BlasInput` is appended afterwards and `blasId` records the last index of
the build list (`allBlas.size() - 1`).  Returns the list handed to
`buildBlas` together with the updated `ImplInst`. -/
def createBottomLevelAS (models : List ObjModel) (implicitObj : ImplInst) :
    List BlasInput × ImplInst :=
  let allBlas := models.foldl (fun acc obj => acc ++ [objectToVkGeometryKHR obj]) []
  if !implicitObj.objImpl.isEmpty then
    let allBlas2 := allBlas ++ [implicitToVkGeometryKHR implicitObj]
    (allBlas2, { implicitObj with blasId := ((allBlas2.length - 1 : Nat) : Int) })
  else
    (allBlas, implicitObj)

/-- `HelloVulkan::createBottomLevelAS` (ray_tracing_gltf/main.cpp): one
`BlasInput` per glTF primitive mesh, pushed in loop order. -/
def createBottomLevelASGltf (vertexBufferAddr indexBufferAddr : Nat)
    (primMeshes : List GltfPrimMesh) : List BlasInput :=
  primMeshes.foldl
    (fun acc p => acc ++ [primitiveToGeometry vertexBufferAddr indexBufferAddr p]) []

/-- Folding push-backs over a list is the same as appending its image. -/
theorem foldl_pushback_eq_map {α β : Type} (f : α → β) (l : List α) (acc : List β) :
    l.foldl (fun a x => a ++ [f x]) acc = acc ++ l.map f := by
  induction l generalizing acc with
  | nil => simp
  | cons x xs ih => simp [List.foldl_cons, ih]

/-- C4: every triangle mesh converted by the geometry adapter gets a build
range with primitive count `indexCount / 3` and transform offset `0`, and
the duplicate-any-hit-suppression geometry flag set; the flag is likewise
set for the procedural AABB geometry. -/
theorem geometry_adapter_spec (model : ObjModel) (va ia : Nat)
    (prim : GltfPrimMesh) (impl : ImplInst) :
    ((objectToVkGeometryKHR model).asBuildOffsetInfo.map BuildRangeInfo.primitiveCount
        = [model.nbIndices / 3]) ∧
    ((objectToVkGeometryKHR model).asBuildOffsetInfo.map BuildRangeInfo.transformOffset
        = [0]) ∧
    ((objectToVkGeometryKHR model).asGeometry.map ASGeometry.noDuplicateAnyHit
        = [true]) ∧
    ((primitiveToGeometry va ia prim).asBuildOffsetInfo.map BuildRangeInfo.primitiveCount
        = [prim.indexCount / 3]) ∧
    ((primitiveToGeometry va ia prim).asBuildOffsetInfo.map BuildRangeInfo.transformOffset
        = [0]) ∧
    ((primitiveToGeometry va ia prim).asGeometry.map ASGeometry.noDuplicateAnyHit
        = [true]) ∧
    ((implicitToVkGeometryKHR impl).asBuildOffsetInfo.map BuildRangeInfo.transformOffset
        = [0]) ∧
    ((implicitToVkGeometryKHR impl).asGeometry.map ASGeometry.noDuplicateAnyHit
        = [true]) := by
  refine ⟨rfl, rfl, rfl, rfl, rfl, rfl, rfl, rfl⟩

/-- C2: the bottom-level build produces exactly one `BlasInput` per input
group in input order; the implicit group, when non-empty, is appended last
and its recorded `blasId` equals the number of mesh models.  The glTF
variant likewise produces one `BlasInput` per primitive mesh in order. -/
theorem createBottomLevelAS_spec (models : List ObjModel) (impl : ImplInst)
    (va ia : Nat) (primMeshes : List GltfPrimMesh) :
    ((createBottomLevelAS models impl).1 =
      models.map objectToVkGeometryKHR ++
        (if impl.objImpl.isEmpty then [] else [implicitToVkGeometryKHR impl])) ∧
    ((createBottomLevelAS models impl).1.length =
      models.length + (if impl.objImpl.isEmpty then 0 else 1)) ∧
    ((createBottomLevelAS models impl).2.blasId =
      (if impl.objImpl.isEmpty then impl.blasId else (models.length : Int))) ∧
    (createBottomLevelASGltf va ia primMeshes =
      primMeshes.map (primitiveToGeometry va ia)) := by
  have hfold := foldl_pushback_eq_map objectToVkGeometryKHR models []
  constructor
  · simp only [createBottomLevelAS]
    by_cases h : impl.objImpl.isEmpty <;> simp [h, hfold]
  · constructor
    · simp only [createBottomLevelAS]
      by_cases h : impl.objImpl.isEmpty <;> simp [h, hfold]
    · constructor
      · simp only [createBottomLevelAS]
        by_cases h : impl.objImpl.isEmpty <;> simp [h, hfold]
      · simpa using foldl_pushback_eq_map (primitiveToGeometry va ia) primMeshes []

/-- Shader stage kinds pushed into the `stages` vector during
`createRtPipeline`. -/
inductive StageKind where
  | raygen
  | miss
  | closestHit
  | anyHit
  | intersection
  | callable
deriving DecidableEq, Repr

/-- `VkRayTracingShaderGroupTypeKHR`. -/
inductive GroupType where
  | general
  | trianglesHitGroup
  | proceduralHitGroup
deriving DecidableEq, Repr

/-- `VK_SHADER_UNUSED_KHR` (`~0u`). -/
def SHADER_UNUSED_KHR : Nat := 4294967295

/-- A `VkRayTracingShaderGroupCreateInfoKHR`: the group type and the four
stage indices, each defaulting to `VK_SHADER_UNUSED_KHR`. -/
structure ShaderGroup where
  groupType : GroupType
  generalShader : Nat := SHADER_UNUSED_KHR
  closestHitShader : Nat := SHADER_UNUSED_KHR
  anyHitShader : Nat := SHADER_UNUSED_KHR
  intersectionShader : Nat := SHADER_UNUSED_KHR
deriving DecidableEq, Repr

/-- The `stages` and `m_rtShaderGroups` vectors being accumulated inside
`createRtPipeline`. -/
structure PipelineBuild where
  stages : List StageKind
  groups : List ShaderGroup
deriving DecidableEq, Repr

/-- Push one general group (raygen / miss / callable): the group's general
shader index is `stages.size()` at push time, then the stage is pushed. -/
def pushGeneralGroup (b : PipelineBuild) (k : StageKind) : PipelineBuild :=
  { stages := b.stages ++ [k]
    groups := b.groups ++ [{ groupType := GroupType.general, generalShader := b.stages.length }] }

/-- Push one triangles hit group: closest-hit stage always, any-hit stage
when `useAnyHit` is set (the OBJ pipeline has one, the glTF pipeline does
not). -/
def pushTrianglesGroup (b : PipelineBuild) (useAnyHit : Bool) : PipelineBuild :=
  let chitIdx := b.stages.length
  if useAnyHit then
    { stages := b.stages ++ [StageKind.closestHit, StageKind.anyHit]
      groups := b.groups ++ [{ groupType := GroupType.trianglesHitGroup,
                               closestHitShader := chitIdx,
                               anyHitShader := chitIdx + 1 }] }
  else
    { stages := b.stages ++ [StageKind.closestHit]
      groups := b.groups ++ [{ groupType := GroupType.trianglesHitGroup,
                               closestHitShader := chitIdx }] }

/-- Push the procedural hit group of the OBJ pipeline: closest-hit, any-hit
and intersection stages. -/
def pushProceduralGroup (b : PipelineBuild) : PipelineBuild :=
  { stages := b.stages ++ [StageKind.closestHit, StageKind.anyHit, StageKind.intersection]
    groups := b.groups ++ [{ groupType := GroupType.proceduralHitGroup,
                             closestHitShader := b.stages.length,
                             anyHitShader := b.stages.length + 1,
                             intersectionShader := b.stages.length + 2 }] }

/-- `Raytracer::createRtPipeline` (raytrace.cpp) group construction, in
source order: raygen, miss, shadow miss, triangles hit group (chit+ahit),
procedural hit group (chit+ahit+intersection), three callable groups. -/
def raytracerPipelineBuild : PipelineBuild :=
  let b0 : PipelineBuild := { stages := [], groups := [] }
  let b1 := pushGeneralGroup b0 StageKind.raygen
  let b2 := pushGeneralGroup b1 StageKind.miss
  let b3 := pushGeneralGroup b2 StageKind.miss
  let b4 := pushTrianglesGroup b3 true
  let b5 := pushProceduralGroup b4
  let b6 := pushGeneralGroup b5 StageKind.callable
  let b7 := pushGeneralGroup b6 StageKind.callable
  pushGeneralGroup b7 StageKind.callable

/-- `HelloVulkan::createRtPipeline` (ray_tracing_gltf/main.cpp) group
construction, in source order: raygen, miss, shadow miss, triangles hit
group (closest hit only). -/
def helloVulkanPipelineBuild : PipelineBuild :=
  let b0 : PipelineBuild := { stages := [], groups := [] }
  let b1 := pushGeneralGroup b0 StageKind.raygen
  let b2 := pushGeneralGroup b1 StageKind.miss
  let b3 := pushGeneralGroup b2 StageKind.miss
  pushTrianglesGroup b3 false

/-- Classification of a shader group into the shader-binding-table region it
belongs to. -/
inductive GroupRole where
  | raygen
  | miss
  | hit
  | callable
deriving DecidableEq, Repr

/-- Modelled from the spec: the Shader Binding Table Manager
(`nvvk::SBTWrapper`, whose implementation is not among this repository's
sources) assigns each shader group to a region by inspecting the stage the
group references: hit groups go to the hit region, and a general group goes
to the raygen, miss or callable region according to the stage kind of its
general shader.  A general group whose shader index is out of range or of a
non-general kind has no region. -/
def groupRole (stages : List StageKind) (g : ShaderGroup) : Option GroupRole :=
  match g.groupType with
  | GroupType.trianglesHitGroup => some GroupRole.hit
  | GroupType.proceduralHitGroup => some GroupRole.hit
  | GroupType.general =>
    match stages.get? g.generalShader with
    | some StageKind.raygen => some GroupRole.raygen
    | some StageKind.miss => some GroupRole.miss
    | some StageKind.callable => some GroupRole.callable
    | _ => none

/-- The region assignment of every group of a pipeline, in group order. -/
def pipelineRoles (b : PipelineBuild) : List (Option GroupRole) :=
  b.groups.map (groupRole b.stages)

/-- Modelled from the spec: the entry counts of the four shader-binding-table
regions (raygen, miss, hit, callable) are the numbers of groups assigned to
each region. -/
def regionEntryCounts (b : PipelineBuild) : Nat × Nat × Nat × Nat :=
  let roles := b.groups.filterMap (groupRole b.stages)
  (roles.count GroupRole.raygen, roles.count GroupRole.miss,
   roles.count GroupRole.hit, roles.count GroupRole.callable)

/-- C3: in both pipelines assembled by `createRtPipeline` the flat group
sequence is exactly one raygen group at index 0, then the miss groups, then
the hit groups, then the callable groups, contiguously; the raygen region
has entry count 1 and the four region entry counts sum to the total group
count. -/
theorem createRtPipeline_group_layout :
    (pipelineRoles raytracerPipelineBuild =
      (([GroupRole.raygen] ++ List.replicate 2 GroupRole.miss
          ++ List.replicate 2 GroupRole.hit
          ++ List.replicate 3 GroupRole.callable).map some)) ∧
    regionEntryCounts raytracerPipelineBuild = (1, 2, 2, 3) ∧
    1 + 2 + 2 + 3 = raytracerPipelineBuild.groups.length ∧
    (pipelineRoles helloVulkanPipelineBuild =
      (([GroupRole.raygen] ++ List.replicate 2 GroupRole.miss
          ++ List.replicate 1 GroupRole.hit).map some)) ∧
    regionEntryCounts helloVulkanPipelineBuild = (1, 2, 1, 0) ∧
    1 + 2 + 1 + 0 = helloVulkanPipelineBuild.groups.length := by
  decide

/-- The two function-local `static` reference values of
`HelloVulkan::updateFrame`: the camera matrix and field of view recorded at
the previous dispatch.  Both are compared bit-for-bit (the matrix through
`memcmp`), so they are modelled as opaque bit-pattern tokens. -/
structure CamRefs where
  refCamMatrix : Nat
  refFov : Nat
deriving DecidableEq, Repr

/-- `HelloVulkan::resetFrame` (ray_tracing_gltf/main.cpp): sets the frame
counter to the sentinel `-1`. -/
def resetFrame (_frame : Int) : Int := -1

/-- `HelloVulkan::updateFrame` (ray_tracing_gltf/main.cpp): when the current
camera matrix or field of view differs from the recorded reference, reset
the counter to the sentinel and record the new reference; then increment the
counter unconditionally.  The state is the pair of the static references and
`m_rtPushConstants.frame`. -/
def updateFrame (s : CamRefs × Int) (m fov : Nat) : CamRefs × Int :=
  let (refs, frame) := s
  if refs.refCamMatrix ≠ m ∨ refs.refFov ≠ fov then
    ({ refCamMatrix := m, refFov := fov }, resetFrame frame + 1)
  else
    (refs, frame + 1)

/-- After `updateFrame` with camera `(m, fov)`, the recorded references equal
`(m, fov)`: either the reset branch stored them, or they already matched. -/
theorem updateFrame_refs (s : CamRefs × Int) (m fov : Nat) :
    (updateFrame s m fov).1 = { refCamMatrix := m, refFov := fov } := by
  obtain ⟨⟨rm, rf⟩, frame⟩ := s
  by_cases hm : rm = m <;> by_cases hf : rf = fov <;>
    simp [updateFrame, hm, hf]

/-- The frame value produced by `updateFrame` is never below zero. -/
theorem updateFrame_frame_nonneg (s : CamRefs × Int) (m fov : Nat)
    (h : -1 ≤ s.2) : 0 ≤ (updateFrame s m fov).2 := by
  obtain ⟨⟨rm, rf⟩, frame⟩ := s
  by_cases hm : rm = m <;> by_cases hf : rf = fov <;>
    · simp only [updateFrame, hm, hf, resetFrame] at h ⊢
      split <;> omega

/-- Events touching the frame-counter state between dispatches: a ray-trace
dispatch (which runs `updateFrame` with the current camera) or an external
`resetFrame` (issued on resize or from the UI). -/
inductive FrameEvent where
  | dispatch (m fov : Nat)
  | reset
deriving DecidableEq, Repr

/-- One frame-counter event step. -/
def frameStep (s : CamRefs × Int) : FrameEvent → CamRefs × Int
  | FrameEvent.dispatch m fov => updateFrame s m fov
  | FrameEvent.reset => (s.1, resetFrame s.2)

/-- Run a sequence of frame-counter events. -/
def runFrameEvents (s : CamRefs × Int) (es : List FrameEvent) : CamRefs × Int :=
  es.foldl frameStep s

/-- Every event step keeps the counter at or above the sentinel. -/
theorem frameStep_ge (s : CamRefs × Int) (e : FrameEvent) (h : -1 ≤ s.2) :
    -1 ≤ (frameStep s e).2 := by
  cases e with
  | dispatch m fov =>
    have h2 := updateFrame_frame_nonneg s m fov h
    simp only [frameStep]
    omega
  | reset => simp [frameStep, resetFrame]

/-- Event sequences keep the counter at or above the sentinel. -/
theorem runFrameEvents_ge (es : List FrameEvent) (s : CamRefs × Int)
    (h : -1 ≤ s.2) : -1 ≤ (runFrameEvents s es).2 := by
  induction es generalizing s with
  | nil => simpa [runFrameEvents] using h
  | cons e es ih =>
    have h1 := frameStep_ge s e h
    simpa [runFrameEvents, List.foldl_cons] using ih (frameStep s e) h1

/-- C7: for two consecutive dispatches whose camera matrix and field of view
are bit-for-bit identical, the counter at the second dispatch is the counter
at the first dispatch plus exactly one. -/
theorem frame_counter_increments_when_camera_static
    (s : CamRefs × Int) (m fov : Nat) :
    (updateFrame (updateFrame s m fov) m fov).2 = (updateFrame s m fov).2 + 1 := by
  have hrefs := updateFrame_refs s m fov
  have hpair : updateFrame s m fov
      = ({ refCamMatrix := m, refFov := fov }, (updateFrame s m fov).2) := by
    rw [← hrefs]
  rw [hpair]
  simp [updateFrame]

/-- C1 counterexample: with references `(0, 0)` and counter `5`, a dispatch
at camera `(0, 0)` followed by a dispatch at the changed camera `(1, 0)`
pushes counter `0` at the second dispatch, not the sentinel `-1`. -/
theorem frame_reset_counterexample :
    (updateFrame (updateFrame ({ refCamMatrix := 0, refFov := 0 }, (5 : Int)) 0 0) 1 0).2
      ≠ -1 := by
  decide

/-- C1 amended: for two consecutive dispatches with differing camera state,
the counter pushed at the second dispatch is `0`, i.e. the sentinel `-1`
plus the unconditional increment that `updateFrame` performs after
`resetFrame`. -/
theorem frame_reset_amended (s : CamRefs × Int) (m fov m2 fov2 : Nat)
    (hdiff : m2 ≠ m ∨ fov2 ≠ fov) :
    (updateFrame (updateFrame s m fov) m2 fov2).2 = 0 := by
  have hrefs := updateFrame_refs s m fov
  have hpair : updateFrame s m fov
      = ({ refCamMatrix := m, refFov := fov }, (updateFrame s m fov).2) := by
    rw [← hrefs]
  rw [hpair]
  have hcond : (({ refCamMatrix := m, refFov := fov } : CamRefs).refCamMatrix ≠ m2
      ∨ ({ refCamMatrix := m, refFov := fov } : CamRefs).refFov ≠ fov2) := by
    rcases hdiff with h | h
    · exact Or.inl fun he => h (by simpa using he.symm)
    · exact Or.inr fun he => h (by simpa using he.symm)
  simp [updateFrame, hcond, resetFrame]

/-- C1 witness: at references `(0, 0)`, counter `5`, first camera `(0, 0)`
and second camera `(1, 0)`, the second dispatch pushes counter `0`. -/
theorem frame_reset_amended_witness :
    (updateFrame (updateFrame ({ refCamMatrix := 0, refFov := 0 }, (5 : Int)) 0 0) 1 0).2
      = 0 :=
  frame_reset_amended ({ refCamMatrix := 0, refFov := 0 }, (5 : Int)) 0 0 1 0
    (Or.inl (by decide))

/-- C10: starting from any state whose counter is at or above the sentinel,
after any sequence of dispatches and external resets, the counter value a
further dispatch pushes (the value of `m_rtPushConstants.frame` right after
`updateFrame`) is nonnegative — it is never the sentinel `-1`, because
`updateFrame` increments unconditionally after any reset. -/
theorem pushed_frame_never_sentinel (s : CamRefs × Int) (es : List FrameEvent)
    (m fov : Nat) (h : -1 ≤ s.2) :
    0 ≤ (updateFrame (runFrameEvents s es) m fov).2 ∧
      (updateFrame (runFrameEvents s es) m fov).2 ≠ -1 := by
  have h1 := runFrameEvents_ge es s h
  have h2 := updateFrame_frame_nonneg (runFrameEvents s es) m fov h1
  exact ⟨h2, by omega⟩

/-- C10 witness: from references `(0, 0)` and counter `0`, after a dispatch
at camera `(1, 2)` and an external reset, the next dispatch pushes a
nonnegative counter. -/
theorem pushed_frame_never_sentinel_witness :
    (-1 ≤ (0 : Int)) ∧
      (0 ≤ (updateFrame (runFrameEvents ({ refCamMatrix := 0, refFov := 0 }, (0 : Int))
          [FrameEvent.dispatch 1 2, FrameEvent.reset]) 3 4).2 ∧
        (updateFrame (runFrameEvents ({ refCamMatrix := 0, refFov := 0 }, (0 : Int))
          [FrameEvent.dispatch 1 2, FrameEvent.reset]) 3 4).2 ≠ -1) :=
  ⟨by decide,
    pushed_frame_never_sentinel ({ refCamMatrix := 0, refFov := 0 }, (0 : Int))
      [FrameEvent.dispatch 1 2, FrameEvent.reset] 3 4 (by decide)⟩

/-- The set of shader stages named in a `VkPushConstantRange` or a
`vkCmdPushConstants` call, restricted to the stages this program ever
names. -/
structure StageFlags where
  raygen : Bool
  closestHit : Bool
  miss : Bool
  callable : Bool
deriving DecidableEq, Repr

/-- The push-constant stage set of `Raytracer::createRtPipeline` and of the
`pushConstants` call in `Raytracer::raytrace` (raytrace.cpp): raygen,
closest-hit, miss and callable. -/
def raytracerPushConstantStages : StageFlags :=
  { raygen := true, closestHit := true, miss := true, callable := true }

/-- The push-constant stage set of `HelloVulkan::createRtPipeline` and of
the `pushConstants` call in `HelloVulkan::raytrace`
(ray_tracing_gltf/main.cpp): raygen, closest-hit and miss only. -/
def helloVulkanPushConstantStages : StageFlags :=
  { raygen := true, closestHit := true, miss := true, callable := false }

/-- `RtPushConstants` of the OBJ tutorial: clear color, the light
parameters, and the frame counter.  Float and vector payloads are opaque
tokens. -/
structure RtPushConstants where
  clearColor : Nat
  lightPosition : Nat
  lightIntensity : Nat
  lightDirection : Nat
  lightSpotCutoff : Nat
  lightSpotOuterCutoff : Nat
  lightType : Nat
  frame : Int
deriving DecidableEq, Repr

/-- The scene constants (`ObjPushConstants`) handed to
`Raytracer::raytrace`, restricted to the fields it reads. -/
structure ObjPushConstants where
  lightPosition : Nat
  lightIntensity : Nat
  lightDirection : Nat
  lightSpotCutoff : Nat
  lightSpotOuterCutoff : Nat
  lightType : Nat
  frame : Int
deriving DecidableEq, Repr

/-- `RtPushConstant` of the glTF tutorial: clear color, light position,
intensity and type, and the frame counter. -/
structure RtPushConstant where
  clearColor : Nat
  lightPosition : Nat
  lightIntensity : Nat
  lightType : Nat
  frame : Int
deriving DecidableEq, Repr

/-- The commands a `raytrace` call records into the command buffer, in
order; `PC` is the push-constant record type of the pipeline. -/
inductive Cmd (PC : Type) where
  | bindPipeline (pipeline : Nat)
  | bindDescriptorSets (sets : List Nat)
  | pushConstants (stages : StageFlags) (pc : PC)
  | traceRays (rgenRegion missRegion hitRegion callRegion : Nat)
      (width height depth : Nat)
deriving DecidableEq, Repr

/-- The shader-binding-table wrapper state: the four region descriptors it
hands out, as opaque tokens. -/
structure SbtWrapper where
  rgenRegion : Nat
  missRegion : Nat
  hitRegion : Nat
  callRegion : Nat
deriving DecidableEq, Repr

/-- Modelled from the spec: `nvvk::SBTWrapper::getRegions` (implementation
not among this repository's sources) returns the four shader-binding-table
regions in the order raygen, miss, hit, callable. -/
def getRegions (w : SbtWrapper) : List Nat :=
  [w.rgenRegion, w.missRegion, w.hitRegion, w.callRegion]

/-- `Raytracer::raytrace` (raytrace.cpp): assemble `m_rtPushConstants` from
the clear color and the scene constants, then record bind-pipeline,
bind-descriptor-sets, push-constants and the `traceRaysKHR` call with
`regions[0..3]` and grid `size.width × size.height × 1`.  Returns the
recorded commands and the assembled record. -/
def raytracerRaytrace (clearColor : Nat) (sceneConstants : ObjPushConstants)
    (sbt : SbtWrapper) (width height : Nat)
    (rtDescSet sceneDescSet pipeline : Nat) :
    List (Cmd RtPushConstants) × RtPushConstants :=
  let pc : RtPushConstants :=
    { clearColor := clearColor
      lightPosition := sceneConstants.lightPosition
      lightIntensity := sceneConstants.lightIntensity
      lightDirection := sceneConstants.lightDirection
      lightSpotCutoff := sceneConstants.lightSpotCutoff
      lightSpotOuterCutoff := sceneConstants.lightSpotOuterCutoff
      lightType := sceneConstants.lightType
      frame := sceneConstants.frame }
  let regions := getRegions sbt
  ([Cmd.bindPipeline pipeline,
    Cmd.bindDescriptorSets [rtDescSet, sceneDescSet],
    Cmd.pushConstants raytracerPushConstantStages pc,
    Cmd.traceRays (regions.getD 0 0) (regions.getD 1 0) (regions.getD 2 0)
      (regions.getD 3 0) width height 1],
   pc)

/-- `HelloVulkan::raytrace` (ray_tracing_gltf/main.cpp): run `updateFrame`
with the current camera, assemble `m_rtPushConstants` (clear color, light
position, intensity and type; the frame field was just written by
`updateFrame`), then record bind-pipeline, bind-descriptor-sets,
push-constants and the `traceRaysKHR` call with `regions[0..3]` and grid
`m_size.width × m_size.height × 1`.  Returns the recorded commands, the new
camera references and the assembled record. -/
def helloVulkanRaytrace (refs : CamRefs) (pc : RtPushConstant)
    (camMatrix camFov : Nat) (clearColor lightPosition lightIntensity lightType : Nat)
    (sbt : SbtWrapper) (width height : Nat) (rtDescSet descSet pipeline : Nat) :
    List (Cmd RtPushConstant) × CamRefs × RtPushConstant :=
  let upd := updateFrame (refs, pc.frame) camMatrix camFov
  let pc2 : RtPushConstant :=
    { clearColor := clearColor
      lightPosition := lightPosition
      lightIntensity := lightIntensity
      lightType := lightType
      frame := upd.2 }
  let regions := getRegions sbt
  ([Cmd.bindPipeline pipeline,
    Cmd.bindDescriptorSets [rtDescSet, descSet],
    Cmd.pushConstants helloVulkanPushConstantStages pc2,
    Cmd.traceRays (regions.getD 0 0) (regions.getD 1 0) (regions.getD 2 0)
      (regions.getD 3 0) width height 1],
   upd.1, pc2)

/-- C5: both `raytrace` functions end their command stream with a trace
call that passes the four shader-binding-table regions in the order raygen,
miss, hit, callable and dispatches a grid of exactly `width × height × 1`. -/
theorem raytrace_dispatch_spec (clearColor : Nat) (sceneConstants : ObjPushConstants)
    (sbt : SbtWrapper) (width height : Nat) (rtDescSet sceneDescSet pipeline : Nat)
    (refs : CamRefs) (pc : RtPushConstant) (camMatrix camFov : Nat)
    (cc lp li lt : Nat) (sbt2 : SbtWrapper) (w2 h2 : Nat) (d1 d2 p2 : Nat) :
    ((raytracerRaytrace clearColor sceneConstants sbt width height
        rtDescSet sceneDescSet pipeline).1.getLast?
      = some (Cmd.traceRays sbt.rgenRegion sbt.missRegion sbt.hitRegion
          sbt.callRegion width height 1)) ∧
    ((helloVulkanRaytrace refs pc camMatrix camFov cc lp li lt
        sbt2 w2 h2 d1 d2 p2).1.getLast?
      = some (Cmd.traceRays sbt2.rgenRegion sbt2.missRegion sbt2.hitRegion
          sbt2.callRegion w2 h2 1)) :=
  ⟨rfl, rfl⟩

/-- C6 counterexample: the push-constant range of the glTF ray-tracing
pipeline (`HelloVulkan::createRtPipeline`) does not include the callable
stage, so the range is not visible to callable shaders in every ray-tracing
pipeline of this program. -/
theorem pushconstant_callable_counterexample :
    helloVulkanPushConstantStages.callable = false := by
  decide

/-- C6 amended: in both `raytrace` functions the push-constant record —
light parameters, clear color and frame counter — is recorded immediately
before the trace call (positions 2 and 3 of the four-command stream), and
the declared push-constant range is visible to the raygen, closest-hit and
miss stages in both pipelines; the callable stage is included only in the
OBJ tutorial's pipeline, not in the glTF pipeline. -/
theorem pushconstants_before_trace_amended (clearColor : Nat)
    (sceneConstants : ObjPushConstants) (sbt : SbtWrapper) (width height : Nat)
    (rtDescSet sceneDescSet pipeline : Nat)
    (refs : CamRefs) (pc : RtPushConstant) (camMatrix camFov : Nat)
    (cc lp li lt : Nat) (sbt2 : SbtWrapper) (w2 h2 : Nat) (d1 d2 p2 : Nat) :
    ((raytracerRaytrace clearColor sceneConstants sbt width height
        rtDescSet sceneDescSet pipeline).1.get? 2
      = some (Cmd.pushConstants raytracerPushConstantStages
          (raytracerRaytrace clearColor sceneConstants sbt width height
            rtDescSet sceneDescSet pipeline).2)) ∧
    ((raytracerRaytrace clearColor sceneConstants sbt width height
        rtDescSet sceneDescSet pipeline).1.get? 3
      = some (Cmd.traceRays sbt.rgenRegion sbt.missRegion sbt.hitRegion
          sbt.callRegion width height 1)) ∧
    ((raytracerRaytrace clearColor sceneConstants sbt width height
        rtDescSet sceneDescSet pipeline).2.clearColor = clearColor) ∧
    ((raytracerRaytrace clearColor sceneConstants sbt width height
        rtDescSet sceneDescSet pipeline).2.lightPosition
        = sceneConstants.lightPosition) ∧
    ((raytracerRaytrace clearColor sceneConstants sbt width height
        rtDescSet sceneDescSet pipeline).2.frame = sceneConstants.frame) ∧
    ((helloVulkanRaytrace refs pc camMatrix camFov cc lp li lt
        sbt2 w2 h2 d1 d2 p2).1.get? 2
      = some (Cmd.pushConstants helloVulkanPushConstantStages
          (helloVulkanRaytrace refs pc camMatrix camFov cc lp li lt
            sbt2 w2 h2 d1 d2 p2).2.2)) ∧
    ((helloVulkanRaytrace refs pc camMatrix camFov cc lp li lt
        sbt2 w2 h2 d1 d2 p2).1.get? 3
      = some (Cmd.traceRays sbt2.rgenRegion sbt2.missRegion sbt2.hitRegion
          sbt2.callRegion w2 h2 1)) ∧
    ((helloVulkanRaytrace refs pc camMatrix camFov cc lp li lt
        sbt2 w2 h2 d1 d2 p2).2.2.clearColor = cc) ∧
    ((helloVulkanRaytrace refs pc camMatrix camFov cc lp li lt
        sbt2 w2 h2 d1 d2 p2).2.2.frame
        = (updateFrame (refs, pc.frame) camMatrix camFov).2) ∧
    (raytracerPushConstantStages
      = { raygen := true, closestHit := true, miss := true, callable := true }) ∧
    (helloVulkanPushConstantStages
      = { raygen := true, closestHit := true, miss := true, callable := false }) :=
  ⟨rfl, rfl, rfl, rfl, rfl, rfl, rfl, rfl, rfl, rfl, rfl⟩

/-- `VkImageLayout`, restricted to the layouts this program writes into
descriptors. -/
inductive ImageLayout where
  | undefined
  | general
deriving DecidableEq, Repr

/-- A `VkDescriptorImageInfo`: sampler handle, image view handle, layout. -/
structure DescriptorImageData where
  sampler : Nat
  imageView : Nat
  layout : ImageLayout
deriving DecidableEq, Repr

/-- The content a descriptor write stores at one binding of the ray-tracing
descriptor set. -/
inductive DescriptorContent where
  | accelStruct (tlas : Nat)
  | storageImage (info : DescriptorImageData)
  | storageBuffer (buffer : Nat) (offset : Nat)
deriving DecidableEq, Repr

/-- A descriptor set maps each binding number to the content last written
there, if any. -/
def DescSet : Type := Nat → Option DescriptorContent

/-- One `vkUpdateDescriptorSets` write of `content` at `binding`. -/
def writeDescriptorSet (ds : DescSet) (binding : Nat) (content : DescriptorContent) :
    DescSet :=
  fun b => if b = binding then some content else ds b

/-- `Raytracer::updateRtDescriptorSet` (raytrace.cpp) and
`HelloVulkan::updateRtDescriptorSet` (ray_tracing_gltf/main.cpp): issue one
write descriptor — a storage image with null sampler, the output image view
and general layout — at binding 1 of the ray-tracing descriptor set. -/
def updateRtDescriptorSet (ds : DescSet) (outputImage : Nat) : DescSet :=
  writeDescriptorSet ds 1
    (DescriptorContent.storageImage
      { sampler := 0, imageView := outputImage, layout := ImageLayout.general })

/-- C8: `updateRtDescriptorSet` is idempotent for a fixed output image
view — a second call with the same view leaves the descriptor-set content
exactly as after the first call. -/
theorem updateRtDescriptorSet_idempotent (ds : DescSet) (outputImage : Nat) :
    updateRtDescriptorSet (updateRtDescriptorSet ds outputImage) outputImage
      = updateRtDescriptorSet ds outputImage := by
  funext b
  by_cases h : b = 1 <;> simp [updateRtDescriptorSet, writeDescriptorSet, h]

/-- The device-side view of handle lifetimes: which handle values are
currently live, and how many destroy calls have been issued against a
non-null handle that was not live (each such call is an invalid release). -/
structure DeviceState where
  live : Nat → Bool
  invalidReleases : Nat

/-- One `vk::Device::destroy` (or allocator destroy) call on handle `h`:
destroying the null handle is a no-op, destroying a live handle kills it,
and destroying a non-null dead handle is an invalid release. -/
def deviceDestroy (d : DeviceState) (h : Nat) : DeviceState :=
  if h = 0 then d
  else if d.live h then
    { d with live := fun x => if x = h then false else d.live x }
  else
    { d with invalidReleases := d.invalidReleases + 1 }

/-- The handle members of a `Raytracer` relevant to `Raytracer::destroy`:
the resources owned by the shader-binding-table wrapper, the BLAS and TLAS
resources owned by the acceleration-structure builder, the four raw handle
members destroyed through the device, and the shader-binding-table
buffer destroyed through the allocator. -/
structure RtResources where
  sbtWrapperResources : List Nat
  builderBlas : List Nat
  builderTlas : Option Nat
  rtDescPool : Nat
  rtDescSetLayout : Nat
  rtPipeline : Nat
  rtPipelineLayout : Nat
  sbtBuffer : Nat

/-- The tail of `Raytracer::destroy` (raytrace.cpp): the device destroys
`m_rtDescPool`, `m_rtDescSetLayout`, `m_rtPipeline` and `m_rtPipelineLayout`
in that order, then `m_alloc->destroy(m_rtSBTBuffer)` releases the buffer. -/
def destroyDeviceTail (d : DeviceState) (r : RtResources) : DeviceState :=
  deviceDestroy (deviceDestroy (deviceDestroy (deviceDestroy
    (deviceDestroy d r.rtDescPool) r.rtDescSetLayout) r.rtPipeline)
    r.rtPipelineLayout) r.sbtBuffer

/-- `Raytracer::destroy` (raytrace.cpp), in source order:
`m_sbtWrapper.destroy()` and `m_rtBuilder.destroy()` release and clear the
resources those helper objects own (their implementations, outside this
repository's sources, reset their own state), then `destroyDeviceTail` runs
the four raw device destroys and the allocator destroy.  The four raw handle
members are passed by value and are NOT cleared; the helper-owned state and
the buffer member are reset. -/
def raytracerDestroy (s : RtResources × DeviceState) : RtResources × DeviceState :=
  let (r, d) := s
  let d := r.sbtWrapperResources.foldl deviceDestroy d
  let d := r.builderBlas.foldl deviceDestroy d
  let d := match r.builderTlas with
    | some t => deviceDestroy d t
    | none => d
  let d := destroyDeviceTail d r
  ({ r with sbtWrapperResources := [], builderBlas := [], builderTlas := none,
            sbtBuffer := 0 },
   d)

/-- A destroy call never revives a dead handle. -/
theorem deviceDestroy_preserves_dead (d : DeviceState) (h x : Nat)
    (hx : d.live x = false) : (deviceDestroy d h).live x = false := by
  by_cases h0 : h = 0
  · simpa [deviceDestroy, h0] using hx
  · by_cases hl : d.live h
    · by_cases hxh : x = h <;> simp [deviceDestroy, h0, hl, hxh, hx]
    · simpa [deviceDestroy, h0, hl] using hx

/-- Destroying a non-null handle leaves it dead. -/
theorem deviceDestroy_kills (d : DeviceState) (h : Nat) (h0 : h ≠ 0) :
    (deviceDestroy d h).live h = false := by
  by_cases hl : d.live h <;> simp [deviceDestroy, h0, hl]

/-- A destroy call on a non-null dead handle only counts an invalid
release. -/
theorem deviceDestroy_dead_step (d : DeviceState) (h : Nat) (h0 : h ≠ 0)
    (hl : d.live h = false) :
    deviceDestroy d h = { d with invalidReleases := d.invalidReleases + 1 } := by
  simp [deviceDestroy, h0, hl]

/-- Folded destroy calls never revive a dead handle. -/
theorem foldl_deviceDestroy_preserves_dead (l : List Nat) (d : DeviceState) (x : Nat)
    (hx : d.live x = false) : (l.foldl deviceDestroy d).live x = false := by
  induction l generalizing d with
  | nil => simpa using hx
  | cons h t ih =>
    simpa [List.foldl_cons] using ih (deviceDestroy d h) (deviceDestroy_preserves_dead d h x hx)

/-- Folded destroy calls kill every non-null handle in the list. -/
theorem foldl_deviceDestroy_kills (l : List Nat) (b : Nat) (hb0 : b ≠ 0) :
    ∀ d : DeviceState, b ∈ l → (l.foldl deviceDestroy d).live b = false := by
  induction l with
  | nil => intro d hb; cases hb
  | cons h t ih =>
    intro d hb
    rcases List.mem_cons.mp hb with hbh | hbt
    · subst hbh
      exact foldl_deviceDestroy_preserves_dead t (deviceDestroy d b) b
        (deviceDestroy_kills d b hb0)
    · exact ih (deviceDestroy d h) hbt

/-- The destroy tail never revives a dead handle. -/
theorem destroyDeviceTail_preserves_dead (d : DeviceState) (r : RtResources)
    (x : Nat) (hx : d.live x = false) : (destroyDeviceTail d r).live x = false := by
  unfold destroyDeviceTail
  exact deviceDestroy_preserves_dead _ _ _
    (deviceDestroy_preserves_dead _ _ _
      (deviceDestroy_preserves_dead _ _ _
        (deviceDestroy_preserves_dead _ _ _
          (deviceDestroy_preserves_dead _ _ _ hx))))

/-- After the destroy tail the four raw handles are dead whenever they are
non-null. -/
theorem destroyDeviceTail_kills (d : DeviceState) (r : RtResources) :
    (r.rtDescPool ≠ 0 → (destroyDeviceTail d r).live r.rtDescPool = false) ∧
    (r.rtDescSetLayout ≠ 0 → (destroyDeviceTail d r).live r.rtDescSetLayout = false) ∧
    (r.rtPipeline ≠ 0 → (destroyDeviceTail d r).live r.rtPipeline = false) ∧
    (r.rtPipelineLayout ≠ 0 → (destroyDeviceTail d r).live r.rtPipelineLayout = false) := by
  unfold destroyDeviceTail
  refine ⟨fun h0 => ?_, fun h0 => ?_, fun h0 => ?_, fun h0 => ?_⟩
  · exact deviceDestroy_preserves_dead _ _ _
      (deviceDestroy_preserves_dead _ _ _
        (deviceDestroy_preserves_dead _ _ _
          (deviceDestroy_preserves_dead _ _ _ (deviceDestroy_kills _ _ h0))))
  · exact deviceDestroy_preserves_dead _ _ _
      (deviceDestroy_preserves_dead _ _ _
        (deviceDestroy_preserves_dead _ _ _ (deviceDestroy_kills _ _ h0)))
  · exact deviceDestroy_preserves_dead _ _ _
      (deviceDestroy_preserves_dead _ _ _ (deviceDestroy_kills _ _ h0))
  · exact deviceDestroy_preserves_dead _ _ _ (deviceDestroy_kills _ _ h0)

/-- On a state where the four raw handles are already dead (and non-null)
and the buffer member has been reset, the destroy tail performs exactly four
invalid releases and changes nothing else. -/
theorem destroyDeviceTail_dead_run (d : DeviceState) (r : RtResources)
    (h1 : r.rtDescPool ≠ 0) (h2 : r.rtDescSetLayout ≠ 0)
    (h3 : r.rtPipeline ≠ 0) (h4 : r.rtPipelineLayout ≠ 0)
    (hb : r.sbtBuffer = 0)
    (hd1 : d.live r.rtDescPool = false) (hd2 : d.live r.rtDescSetLayout = false)
    (hd3 : d.live r.rtPipeline = false) (hd4 : d.live r.rtPipelineLayout = false) :
    destroyDeviceTail d r = { d with invalidReleases := d.invalidReleases + 4 } := by
  simp only [destroyDeviceTail, deviceDestroy, h1, h2, h3, h4, hb, hd1, hd2, hd3, hd4,
    if_false, if_true, Bool.false_eq_true, ite_false, ite_true]

/-- The handles and device state of the concrete teardown scenario: every
resource live, every handle non-null and distinct. -/
def exampleRtResources : RtResources :=
  { sbtWrapperResources := [10], builderBlas := [2, 3], builderTlas := some 4,
    rtDescPool := 5, rtDescSetLayout := 6, rtPipeline := 7,
    rtPipelineLayout := 8, sbtBuffer := 9 }

/-- The device state of the concrete teardown scenario. -/
def exampleDeviceState : DeviceState :=
  { live := fun _ => true, invalidReleases := 0 }

/-- C9 counterexample: with every handle live and non-null, the first
`destroy` performs no invalid release, while an immediately repeated
`destroy` performs four — the repeated call does not leave the state
unchanged, so `destroy` is not idempotent. -/
theorem destroy_idempotent_counterexample :
    (raytracerDestroy (raytracerDestroy
        (exampleRtResources, exampleDeviceState))).2.invalidReleases
      ≠ (raytracerDestroy (exampleRtResources, exampleDeviceState)).2.invalidReleases := by
  decide

/-- C9 amended: `destroy` does release every non-null BLAS and TLAS
resource, but it is not idempotent: because the descriptor-pool,
descriptor-set-layout, pipeline and pipeline-layout members are not cleared,
a second call re-destroys those four stale non-null handles, performing
exactly four invalid releases. -/
theorem destroy_releases_all_but_not_idempotent (r : RtResources) (d : DeviceState)
    (h1 : r.rtDescPool ≠ 0) (h2 : r.rtDescSetLayout ≠ 0)
    (h3 : r.rtPipeline ≠ 0) (h4 : r.rtPipelineLayout ≠ 0) :
    (∀ b ∈ r.builderBlas, b ≠ 0 → (raytracerDestroy (r, d)).2.live b = false) ∧
    (∀ t, r.builderTlas = some t → t ≠ 0 →
      (raytracerDestroy (r, d)).2.live t = false) ∧
    ((raytracerDestroy (raytracerDestroy (r, d))).2.invalidReleases
      = (raytracerDestroy (r, d)).2.invalidReleases + 4) := by
  refine ⟨?_, ?_, ?_⟩
  · intro b hb hb0
    simp only [raytracerDestroy]
    apply destroyDeviceTail_preserves_dead
    cases htlas : r.builderTlas with
    | none =>
      exact foldl_deviceDestroy_kills r.builderBlas b hb0 _ hb
    | some t =>
      exact deviceDestroy_preserves_dead _ _ _
        (foldl_deviceDestroy_kills r.builderBlas b hb0 _ hb)
  · intro t htlas ht0
    simp only [raytracerDestroy]
    rw [htlas]
    apply destroyDeviceTail_preserves_dead
    exact deviceDestroy_kills _ _ ht0
  · have hk := destroyDeviceTail_kills
      (match r.builderTlas with
        | some t => deviceDestroy (r.builderBlas.foldl deviceDestroy
            (r.sbtWrapperResources.foldl deviceDestroy d)) t
        | none => r.builderBlas.foldl deviceDestroy
            (r.sbtWrapperResources.foldl deviceDestroy d)) r
    have hdead1 : (raytracerDestroy (r, d)).2.live r.rtDescPool = false := hk.1 h1
    have hdead2 : (raytracerDestroy (r, d)).2.live r.rtDescSetLayout = false := hk.2.1 h2
    have hdead3 : (raytracerDestroy (r, d)).2.live r.rtPipeline = false := hk.2.2.1 h3
    have hdead4 : (raytracerDestroy (r, d)).2.live r.rtPipelineLayout = false := hk.2.2.2 h4
    have hfst : (raytracerDestroy (r, d)).1
        = { r with sbtWrapperResources := [], builderBlas := [], builderTlas := none,
                   sbtBuffer := 0 } := rfl
    have hsplit : raytracerDestroy (r, d)
        = ({ r with sbtWrapperResources := [], builderBlas := [], builderTlas := none,
                    sbtBuffer := 0 },
           (raytracerDestroy (r, d)).2) := by
      rw [← hfst]
    rw [hsplit]
    generalize hX : (raytracerDestroy (r, d)).2 = d1 at hdead1 hdead2 hdead3 hdead4 ⊢
    have hstep : (raytracerDestroy
        ({ r with sbtWrapperResources := [], builderBlas := [], builderTlas := none,
                  sbtBuffer := 0 }, d1)).2
        = destroyDeviceTail d1
            { r with sbtWrapperResources := [], builderBlas := [], builderTlas := none,
                     sbtBuffer := 0 } := rfl
    rw [hstep]
    exact congrArg DeviceState.invalidReleases
      (destroyDeviceTail_dead_run d1
        { r with sbtWrapperResources := [], builderBlas := [], builderTlas := none,
                 sbtBuffer := 0 }
        h1 h2 h3 h4 rfl hdead1 hdead2 hdead3 hdead4)

/-- C9 witness: at the concrete teardown scenario, the BLAS handles and the
TLAS handle are all dead after `destroy`, and the second `destroy` performs
exactly four more invalid releases. -/
theorem destroy_releases_all_but_not_idempotent_witness :
    (∀ b ∈ exampleRtResources.builderBlas, b ≠ 0 →
      (raytracerDestroy (exampleRtResources, exampleDeviceState)).2.live b = false) ∧
    (∀ t, exampleRtResources.builderTlas = some t → t ≠ 0 →
      (raytracerDestroy (exampleRtResources, exampleDeviceState)).2.live t = false) ∧
    ((raytracerDestroy (raytracerDestroy
        (exampleRtResources, exampleDeviceState))).2.invalidReleases
      = (raytracerDestroy (exampleRtResources, exampleDeviceState)).2.invalidReleases + 4) :=
  destroy_releases_all_but_not_idempotent exampleRtResources exampleDeviceState
    (by decide) (by decide) (by decide) (by decide)
